import Mathlib

/-!
Shallow embedding of the RM690B0 display-controller driver
(`src/lib.rs`, `src/graphics_core.rs`, `src/displays/lilygo_t4_s3.rs`).

The driver owns a framebuffer (a byte buffer, modelled as `List Nat` with
byte values), a display geometry, and a transport.  Transport transactions
are logged in order in the driver state; transport failures are modelled by
a schedule `tr : Nat → Bool` telling whether the n-th transaction (counted
from the start of the log) succeeds.  Machine integers are modelled as `Nat`
with explicit `/ 256` and `% 256` where the source casts or shifts.
-/

/-- `DisplaySize` from `lib.rs`: width and height in pixels (`u16` fields). -/
structure DisplaySize where
  width : Nat
  height : Nat
deriving DecidableEq

/-- `ColorMode` from `lib.rs`. -/
inductive ColorMode where
  | Rgb565
  | Rgb888
  | Rgb666
  | Gray8
deriving DecidableEq

/-- `ColorMode::bytes_per_pixel` from `lib.rs`. -/
def ColorMode.bytes_per_pixel : ColorMode → Nat
  | .Rgb565 => 2
  | .Rgb888 => 3
  | .Rgb666 => 3
  | .Gray8 => 1

/-- `framebuffer_size` from `lib.rs`. -/
def framebuffer_size (display : DisplaySize) (color : ColorMode) : Nat :=
  display.width * display.height * color.bytes_per_pixel

-- The RM690B0 command constants used by the driver (`commands` module in `lib.rs`).
namespace commands

def SLPIN : Nat := 0x10
def SLPOUT : Nat := 0x11
def DISPOFF : Nat := 0x28
def DISPON : Nat := 0x29
def CASET : Nat := 0x2A
def RASET : Nat := 0x2B
def RAMWR : Nat := 0x2C
def TEON : Nat := 0x35
def MADCTR : Nat := 0x36
def COLMOD : Nat := 0x3A
def RAMWRC : Nat := 0x3C
def WRDISBV : Nat := 0x51

end commands

/-- One logical transaction issued through the `ControllerInterface` trait. -/
inductive Transaction where
  | command (cmd : Nat)
  | commandData (cmd : Nat) (data : List Nat)
  | pixels (data : List Nat)
deriving DecidableEq

/-- `DriverError` from `lib.rs` (the two wrapped collaborator errors are
collapsed to their tags; `InvalidConfiguration` keeps its `&'static str`). -/
inductive DriverError where
  | interfaceError
  | resetError
  | invalidConfiguration (msg : String)
deriving DecidableEq

/-- The observable state of a `Rm690b0Driver`: its framebuffer, its geometry,
and the ordered log of transactions issued so far through the interface. -/
structure DriverState where
  framebuffer : List Nat
  config : DisplaySize
  sent : List Transaction
deriving DecidableEq

/-- Result of a fallible driver operation: `Rust`'s `Result<(), DriverError>`
on a `&mut self` receiver, so the (possibly updated) state is kept in both
branches. -/
inductive DResult where
  | ok (st : DriverState)
  | error (e : DriverError) (st : DriverState)
deriving DecidableEq

/-- `?`-propagation for `DResult`. -/
def DResult.bind (r : DResult) (f : DriverState → DResult) : DResult :=
  match r with
  | .ok st => f st
  | .error e st => .error e st

/-- `Rm690b0Driver::send_command`: issue a bare command over the transport;
a transport failure is wrapped as `InterfaceError`.  `tr n` tells whether the
transaction issued when `n` transactions have already been logged succeeds. -/
def send_command (tr : Nat → Bool) (st : DriverState) (cmd : Nat) : DResult :=
  if tr st.sent.length then
    .ok { st with sent := st.sent ++ [Transaction.command cmd] }
  else .error DriverError.interfaceError st

/-- `Rm690b0Driver::send_command_with_data`. -/
def send_command_with_data (tr : Nat → Bool) (st : DriverState) (cmd : Nat)
    (data : List Nat) : DResult :=
  if tr st.sent.length then
    .ok { st with sent := st.sent ++ [Transaction.commandData cmd data] }
  else .error DriverError.interfaceError st

/-- `ControllerInterface::send_pixels` as invoked by the driver, with the
transport failure wrapped as `InterfaceError`. -/
def send_pixels (tr : Nat → Bool) (st : DriverState) (data : List Nat) : DResult :=
  if tr st.sent.length then
    .ok { st with sent := st.sent ++ [Transaction.pixels data] }
  else .error DriverError.interfaceError st

/-- `Rm690b0Driver::set_window` from `lib.rs`: validate the window, then send
CASET and RASET.  The source checks `x_end < x_start || y_end < y_start ||
x_end >= 480 || y_end >= self.config.height`; the data bytes are the `u16`
coordinates split big-endian (`(v >> 8) as u8`, `(v & 0xFF) as u8`). -/
def set_window (tr : Nat → Bool) (st : DriverState)
    (x_start y_start x_end y_end : Nat) : DResult :=
  if x_end < x_start ∨ y_end < y_start ∨ 480 ≤ x_end ∨ st.config.height ≤ y_end then
    .error (DriverError.invalidConfiguration "Invalid window dimensions") st
  else
    DResult.bind (send_command_with_data tr st commands.CASET
      [x_start / 256 % 256, x_start % 256, x_end / 256 % 256, x_end % 256])
      (fun st1 => send_command_with_data tr st1 commands.RASET
        [y_start / 256 % 256, y_start % 256, y_end / 256 % 256, y_end % 256])

/-- The row-gathering loop of `Rm690b0Driver::partial_flush`: starting at row
`y` with `k` rows to go, compute each row's byte range
`[y * fb_width + xoff, y * fb_width + xoff + row_len)`, and append the rows in
order; `none` models the `InvalidConfiguration("Framebuffer slice out of
bounds")` early return taken at the first row whose range fails the source's
`offset < len && row_end <= len` guard. -/
def packRows (fb : List Nat) (fb_width xoff row_len : Nat) : Nat → Nat → Option (List Nat)
  | _, 0 => some []
  | y, k + 1 =>
    let offset := y * fb_width + xoff
    let row_end := offset + row_len
    if offset < fb.length ∧ row_end ≤ fb.length then
      match packRows fb fb_width xoff row_len (y + 1) k with
      | some rest => some ((fb.drop offset).take row_len ++ rest)
      | none => none
    else none

/-- `Rm690b0Driver::partial_flush` from `lib.rs` (argument order as in the
source: `x_start, x_end, y_start, y_end, color`). -/
def partialFlush (tr : Nat → Bool) (st : DriverState)
    (x_start x_end y_start y_end : Nat) (color : ColorMode) : DResult :=
  DResult.bind (set_window tr st x_start y_start x_end y_end) (fun st1 =>
    let bytes_per_pixel := color.bytes_per_pixel
    let fb_width := st1.config.width * bytes_per_pixel
    let width := x_end - x_start + 1
    let height := y_end - y_start + 1
    match packRows st1.framebuffer fb_width (x_start * bytes_per_pixel)
        (width * bytes_per_pixel) y_start height with
    | some pixel_data => send_pixels tr st1 pixel_data
    | none =>
      .error (DriverError.invalidConfiguration "Framebuffer slice out of bounds") st1)

/-- Checked `u16` subtraction: `none` models the arithmetic-overflow panic of
`a - b` in Rust when `b > a`. -/
def checkedSub (a b : Nat) : Option Nat :=
  if b ≤ a then some (a - b) else none

/-- `Rm690b0Driver::flush` from `lib.rs`: set the window to the full display
extent `(0,0)-(width-1,height-1)` and stream the whole framebuffer.  The two
`u16` subtractions are checked; an underflow (`width = 0` or `height = 0`)
is the panic case, modelled as `none`. -/
def flush (tr : Nat → Bool) (st : DriverState) : Option DResult :=
  match checkedSub st.config.width 1, checkedSub st.config.height 1 with
  | some xe, some ye =>
    some (DResult.bind (set_window tr st 0 0 xe ye)
      (fun st1 => send_pixels tr st1 st1.framebuffer))
  | _, _ => none

/-- `Rm690b0Driver::initialize_display` from `lib.rs`: the fixed init
sequence.  Delays are not transactions and are not modelled. -/
def initialize_display (tr : Nat → Bool) (st : DriverState) (color : ColorMode) : DResult :=
  DResult.bind (send_command tr st commands.SLPOUT) (fun st =>
  DResult.bind (send_command_with_data tr st 0xFE [0x20]) (fun st =>
  DResult.bind (send_command_with_data tr st 0x26 [0x0A]) (fun st =>
  DResult.bind (send_command_with_data tr st 0x24 [0x80]) (fun st =>
  DResult.bind (send_command_with_data tr st 0x5A [0x51]) (fun st =>
  DResult.bind (send_command_with_data tr st 0x5B [0x2E]) (fun st =>
  DResult.bind (send_command_with_data tr st 0xFE [0x00]) (fun st =>
  DResult.bind (match color with
    | ColorMode.Rgb565 => send_command_with_data tr st commands.COLMOD [0x55]
    | ColorMode.Rgb888 => send_command_with_data tr st commands.COLMOD [0x77]
    | ColorMode.Rgb666 => send_command_with_data tr st commands.COLMOD [0x66]
    | ColorMode.Gray8 => send_command_with_data tr st commands.COLMOD [0x11]) (fun st =>
  DResult.bind (send_command_with_data tr st commands.TEON [0x00]) (fun st =>
  DResult.bind (send_command tr st commands.DISPON) (fun st =>
  send_command_with_data tr st commands.WRDISBV [0xFF]))))))))))

/-- `embedded_graphics` `Rgb888`: three 8-bit channels. -/
structure Rgb888 where
  r : Nat
  g : Nat
  b : Nat
deriving DecidableEq

/-- `RgbColor::into_storage` for `Rgb888`: the 24-bit packed value
`(r << 16) | (g << 8) | b`. -/
def Rgb888.into_storage (c : Rgb888) : Nat :=
  c.r * 65536 + c.g * 256 + c.b

/-- `embedded_graphics` `Pixel<Rgb888>`: a signed (`i32`) coordinate plus a
color. -/
structure Pixel where
  x : Int
  y : Int
  color : Rgb888
deriving DecidableEq

/-- The body of the loop in `DrawTarget::draw_iter` (`graphics_core.rs`):
clip against `[0, width) x [0, height)`, compute `index = (y*width + x) * 3`,
and if `index + 2 < framebuffer.len()` store the three channel bytes
(`(storage >> 16) as u8`, `(storage >> 8) as u8`, `storage as u8`) at
`index`, `index + 1`, `index + 2`; otherwise leave the framebuffer as is. -/
def draw_pixel (config : DisplaySize) (fb : List Nat) (p : Pixel) : List Nat :=
  if 0 ≤ p.x ∧ p.x < (config.width : Int) ∧ 0 ≤ p.y ∧ p.y < (config.height : Int) then
    let x := p.x.toNat
    let y := p.y.toNat
    let index := (y * config.width + x) * 3
    if index + 2 < fb.length then
      ((fb.set index (p.color.into_storage / 65536 % 256)).set (index + 1)
        (p.color.into_storage / 256 % 256)).set (index + 2) (p.color.into_storage % 256)
    else fb
  else fb

/-- `DrawTarget::draw_iter` (`graphics_core.rs`) acting on the framebuffer:
fold the per-pixel write over the iterator.  The source's return type is
`Result<(), Infallible>`, so the operation always succeeds and only the
framebuffer effect is modelled. -/
def draw_iter (config : DisplaySize) (fb : List Nat) (pixels : List Pixel) : List Nat :=
  pixels.foldl (draw_pixel config) fb

-- `src/displays/lilygo_t4_s3.rs`: the QSPI `ControllerInterface` binding.
namespace Lgt4s3

def CMD_RAMWR : Nat := 0x2C

def CMD_RAMWRC : Nat := 0x3C

def QSPI_PIXEL_OPCODE : Nat := 0x32

def QSPI_CONTROL_OPCODE : Nat := 0x02

def DMA_CHUNK_SIZE : Nat := 16380

/-- `esp_hal` `DataMode` as used by this driver. -/
inductive DataMode where
  | single
  | quad
deriving DecidableEq

/-- One `half_duplex_write` call: data-width mode, 8-bit command opcode,
24-bit address, payload. -/
structure HdWrite where
  mode : DataMode
  opcode : Nat
  address : Nat
  payload : List Nat
deriving DecidableEq

/-- Rust's `slice::chunks(n)`: split into consecutive chunks of `n` elements,
the last possibly shorter; an empty slice yields no chunks.  (`n = 0` panics
in Rust and never occurs here; it is mapped to `[]`.) -/
def chunksOf (n : Nat) (l : List Nat) : List (List Nat) :=
  if n = 0 ∨ l = [] then [] else l.take n :: chunksOf n (l.drop n)
termination_by l.length
decreasing_by
  rename_i h
  push_neg at h
  have hl : 0 < l.length := List.length_pos.mpr h.2
  simp only [List.length_drop]
  omega

/-- `Lgt4s3Driver::send_pixels` (`lilygo_t4_s3.rs`): split the payload into
`DMA_CHUNK_SIZE` chunks and issue one quad-mode `half_duplex_write` per
chunk, addressing chunk 0 with `RAMWR << 8` and every later chunk with
`RAMWRC << 8`. -/
def send_pixels (pixels : List Nat) : List HdWrite :=
  (chunksOf DMA_CHUNK_SIZE pixels).enum.map (fun p =>
    if p.1 = 0 then
      { mode := DataMode.quad, opcode := QSPI_PIXEL_OPCODE,
        address := CMD_RAMWR <<< 8, payload := p.2 }
    else
      { mode := DataMode.quad, opcode := QSPI_PIXEL_OPCODE,
        address := CMD_RAMWRC <<< 8, payload := p.2 })

end Lgt4s3

/-!  Spec-side definitions, written from the spec's words, used to state the
claims and compared against the embedded code. -/

/-- The pixel payload the spec says a partial flush must send: for `y` from
`y_start` to `y_end` in increasing order, the framebuffer bytes in
`[(y*width + x_start)*N, (y*width + x_start)*N + (x_end - x_start + 1)*N)`,
concatenated. -/
def rectPayload (fb : List Nat) (w N x_start x_end y_start y_end : Nat) : List Nat :=
  ((List.range (y_end - y_start + 1)).map (fun i =>
    (fb.drop (((y_start + i) * w + x_start) * N)).take ((x_end - x_start + 1) * N))).flatten

/-- The COLMOD data byte selected for each `ColorMode` in
`initialize_display`. -/
def colmodByte : ColorMode → Nat
  | .Rgb565 => 0x55
  | .Rgb888 => 0x77
  | .Rgb666 => 0x66
  | .Gray8 => 0x11

/-- The documented fixed initialization sequence, as a transaction list. -/
def initSequence (color : ColorMode) : List Transaction :=
  [Transaction.command commands.SLPOUT,
   Transaction.commandData 0xFE [0x20],
   Transaction.commandData 0x26 [0x0A],
   Transaction.commandData 0x24 [0x80],
   Transaction.commandData 0x5A [0x51],
   Transaction.commandData 0x5B [0x2E],
   Transaction.commandData 0xFE [0x00],
   Transaction.commandData commands.COLMOD [colmodByte color],
   Transaction.commandData commands.TEON [0x00],
   Transaction.command commands.DISPON,
   Transaction.commandData commands.WRDISBV [0xFF]]

/-- Dispatch one logged transaction through the corresponding driver send
helper (used to relate `initialize_display` to `initSequence`). -/
def sendTxn (tr : Nat → Bool) (st : DriverState) : Transaction → DResult
  | .command cmd => send_command tr st cmd
  | .commandData cmd data => send_command_with_data tr st cmd data
  | .pixels data => send_pixels tr st data

/-- Issue a list of transactions in order, stopping at the first failure. -/
def sendSeq (tr : Nat → Bool) (st : DriverState) : List Transaction → DResult
  | [] => DResult.ok st
  | t :: rest => DResult.bind (sendTxn tr st t) (fun st1 => sendSeq tr st1 rest)

/-! ### Helper lemmas -/

theorem DResult.bind_ok_right (r : DResult) :
    DResult.bind r (fun st => DResult.ok st) = r := by
  cases r <;> rfl

theorem sendTxn_ok (tr : Nat → Bool) (st : DriverState) (t : Transaction)
    (h : tr st.sent.length = true) :
    sendTxn tr st t = DResult.ok { st with sent := st.sent ++ [t] } := by
  cases t <;> simp [sendTxn, send_command, send_command_with_data, send_pixels, h]

theorem sendTxn_fail (tr : Nat → Bool) (st : DriverState) (t : Transaction)
    (h : tr st.sent.length = false) :
    sendTxn tr st t = DResult.error DriverError.interfaceError st := by
  cases t <;> simp [sendTxn, send_command, send_command_with_data, send_pixels, h]

theorem sendSeq_all_ok (tr : Nat → Bool) :
    ∀ (l : List Transaction) (st : DriverState),
      (∀ i, i < l.length → tr (st.sent.length + i) = true) →
      sendSeq tr st l = DResult.ok { st with sent := st.sent ++ l } := by
  intro l
  induction l with
  | nil => intro st _; simp [sendSeq]
  | cons t rest ih =>
    intro st h
    have h0 : tr st.sent.length = true := by
      have := h 0 (by simp)
      simpa using this
    have hstep := sendTxn_ok tr st t h0
    have ihs := ih { st with sent := st.sent ++ [t] } (by
      intro i hi
      have := h (i + 1) (by simpa using Nat.succ_lt_succ hi)
      simpa [Nat.add_assoc, Nat.add_comm 1 i] using this)
    simp [sendSeq, hstep, DResult.bind, ihs]

theorem sendSeq_fail_at (tr : Nat → Bool) :
    ∀ (l : List Transaction) (k : Nat) (st : DriverState),
      k < l.length →
      (∀ i, i < k → tr (st.sent.length + i) = true) →
      tr (st.sent.length + k) = false →
      sendSeq tr st l =
        DResult.error DriverError.interfaceError { st with sent := st.sent ++ l.take k } := by
  intro l
  induction l with
  | nil => intro k st hk _ _; simp at hk
  | cons t rest ih =>
    intro k st hk hpre hfail
    cases k with
    | zero =>
      have h0 : tr st.sent.length = false := by simpa using hfail
      simp [sendSeq, sendTxn_fail tr st t h0, DResult.bind]
    | succ k =>
      have h0 : tr st.sent.length = true := by
        have := hpre 0 (by omega)
        simpa using this
      have hstep := sendTxn_ok tr st t h0
      have ihs := ih k { st with sent := st.sent ++ [t] }
        (by simpa using Nat.lt_of_succ_lt_succ hk)
        (by
          intro i hi
          have := hpre (i + 1) (by omega)
          simpa [Nat.add_assoc, Nat.add_comm 1 i] using this)
        (by
          have : st.sent.length + (k + 1) = st.sent.length + 1 + k := by omega
          simpa [this] using hfail)
      simp [sendSeq, hstep, DResult.bind, ihs]

theorem initialize_display_eq_sendSeq (tr : Nat → Bool) (st : DriverState)
    (color : ColorMode) :
    initialize_display tr st color = sendSeq tr st (initSequence color) := by
  cases color <;>
    simp [initialize_display, sendSeq, sendTxn, initSequence, colmodByte,
      DResult.bind_ok_right]

theorem initSequence_length (color : ColorMode) : (initSequence color).length = 11 := by
  cases color <;> rfl

/-- C8: `initialize_display` issues exactly the ordered sequence SLPOUT, the
manufacturer register writes `0xFE=0x20`, `0x26=0x0A`, `0x24=0x80`,
`0x5A=0x51`, `0x5B=0x2E`, `0xFE=0x00`, COLMOD with the byte of the selected
`ColorMode` (0x55/0x77/0x66/0x11), TEON `0x00`, DISPON, WRDISBV `0xFF`; and
if the transport fails at step `k`, the error is returned wrapped as
`InterfaceError` and no step after `k` is attempted. -/
theorem claim_C8_init_sequence (tr : Nat → Bool) (st : DriverState) (color : ColorMode) :
    ((∀ i, i < 11 → tr (st.sent.length + i) = true) →
      initialize_display tr st color =
        DResult.ok { st with sent := st.sent ++ initSequence color }) ∧
    (∀ k, k < 11 → (∀ i, i < k → tr (st.sent.length + i) = true) →
      tr (st.sent.length + k) = false →
      initialize_display tr st color =
        DResult.error DriverError.interfaceError
          { st with sent := st.sent ++ (initSequence color).take k }) := by
  constructor
  · intro h
    rw [initialize_display_eq_sendSeq]
    exact sendSeq_all_ok tr (initSequence color) st (by
      intro i hi
      exact h i (by simpa [initSequence_length] using hi))
  · intro k hk hpre hfail
    rw [initialize_display_eq_sendSeq]
    exact sendSeq_fail_at tr (initSequence color) k st
      (by simpa [initSequence_length] using hk) hpre hfail

/-- Witness for C8: on an always-succeeding transport the full 11-step
sequence is sent; on a transport failing at step 3 (0-based) the result is
`InterfaceError` with exactly the first three transactions issued. -/
theorem claim_C8_init_sequence_witness :
    (initialize_display (fun _ => true) ⟨[], ⟨2, 2⟩, []⟩ ColorMode.Rgb888 =
      DResult.ok ⟨[], ⟨2, 2⟩, initSequence ColorMode.Rgb888⟩) ∧
    (initialize_display (fun n => n != 3) ⟨[], ⟨2, 2⟩, []⟩ ColorMode.Rgb888 =
      DResult.error DriverError.interfaceError
        ⟨[], ⟨2, 2⟩, (initSequence ColorMode.Rgb888).take 3⟩) :=
  ⟨(claim_C8_init_sequence (fun _ => true) ⟨[], ⟨2, 2⟩, []⟩ ColorMode.Rgb888).1
      (by decide),
   (claim_C8_init_sequence (fun n => n != 3) ⟨[], ⟨2, 2⟩, []⟩ ColorMode.Rgb888).2
      3 (by decide) (by decide) (by decide)⟩

theorem bytes_per_pixel_pos (c : ColorMode) : 0 < c.bytes_per_pixel := by
  cases c <;> decide

theorem set_window_ok (tr : Nat → Bool) (st : DriverState) (xs ys xe ye : Nat)
    (hgeom : ¬(xe < xs ∨ ye < ys ∨ 480 ≤ xe ∨ st.config.height ≤ ye))
    (h0 : tr st.sent.length = true) (h1 : tr (st.sent.length + 1) = true) :
    set_window tr st xs ys xe ye =
      DResult.ok { st with sent := st.sent ++
        [Transaction.commandData commands.CASET [xs / 256 % 256, xs % 256, xe / 256 % 256, xe % 256],
         Transaction.commandData commands.RASET [ys / 256 % 256, ys % 256, ye / 256 % 256, ye % 256]] } := by
  unfold set_window send_command_with_data
  rw [if_neg hgeom]
  simp [h0, DResult.bind, h1]

theorem set_window_reject (tr : Nat → Bool) (st : DriverState) (xs ys xe ye : Nat)
    (hgeom : xe < xs ∨ ye < ys ∨ 480 ≤ xe ∨ st.config.height ≤ ye) :
    set_window tr st xs ys xe ye =
      DResult.error (DriverError.invalidConfiguration "Invalid window dimensions") st := by
  unfold set_window
  rw [if_pos hgeom]

/-- C2 (amended): for every rectangle with `x_end < x_start`, or
`y_end < y_start`, or `x_end >= 480` (the controller's fixed maximum column
index used by `set_window`), or `y_end >=` the configured height,
`partial_flush` returns `InvalidConfiguration` and no command or pixel
transaction is issued (the transaction log is unchanged), for every transport
behavior. -/
theorem claim_C2_reject (tr : Nat → Bool) (st : DriverState) (xs xe ys ye : Nat)
    (color : ColorMode)
    (h : xe < xs ∨ ye < ys ∨ 480 ≤ xe ∨ st.config.height ≤ ye) :
    partialFlush tr st xs xe ys ye color =
      DResult.error (DriverError.invalidConfiguration "Invalid window dimensions") st := by
  unfold partialFlush
  rw [set_window_reject tr st xs ys xe ye h]
  rfl

/-- Witness for C2 (amended): an inverted rectangle on a 4x4 panel is
rejected with the window-dimension error and nothing is sent. -/
theorem claim_C2_reject_witness :
    (2 < (3 : Nat) ∨ (0 : Nat) < 0 ∨ 480 ≤ (2 : Nat) ∨ (4 : Nat) ≤ 0) ∧
    partialFlush (fun _ => true) ⟨List.replicate 48 0, ⟨4, 4⟩, []⟩ 3 2 0 0 ColorMode.Rgb888 =
      DResult.error (DriverError.invalidConfiguration "Invalid window dimensions")
        ⟨List.replicate 48 0, ⟨4, 4⟩, []⟩ :=
  ⟨by decide,
   claim_C2_reject (fun _ => true) ⟨List.replicate 48 0, ⟨4, 4⟩, []⟩ 3 2 0 0
     ColorMode.Rgb888 (by decide)⟩

/-- Counterexample to C2 as stated: on a panel of configured width 2, the
rectangle `x_start = 0, x_end = 3` exceeds the panel bounds
(`x_end >= width`), yet `partial_flush` does NOT return
`InvalidConfiguration`: it succeeds and issues CASET, RASET and a pixel
burst, because `set_window` compares `x_end` against the literal 480, not
against the configured width. -/
theorem claim_C2_counterexample :
    (DisplaySize.mk 2 4).width ≤ 3 ∧
    partialFlush (fun _ => true) ⟨List.range 24, ⟨2, 4⟩, []⟩ 0 3 0 0 ColorMode.Rgb888 =
      DResult.ok ⟨List.range 24, ⟨2, 4⟩,
        [Transaction.commandData commands.CASET [0, 0, 0, 3],
         Transaction.commandData commands.RASET [0, 0, 0, 0],
         Transaction.pixels [0, 1, 2, 3, 4, 5, 6, 7, 8, 9, 10, 11]]⟩ := by
  decide

/-- C10: `flush` is total (panic-free) exactly when `width >= 1` and
`height >= 1`: with `width = 0` or `height = 0` the computation of the
full-display window extent `(width - 1, height - 1)` underflows the unsigned
coordinate type (modelled as the `none`/panic case) instead of returning an
`InvalidConfiguration` error; for `width, height >= 1` the subtractions are
well-defined and a result is produced. -/
theorem claim_C10_flush_panic (tr : Nat → Bool) (st : DriverState) :
    flush tr st = none ↔ (st.config.width = 0 ∨ st.config.height = 0) := by
  unfold flush checkedSub
  by_cases h1 : 1 ≤ st.config.width <;> by_cases h2 : 1 ≤ st.config.height <;>
    simp [h1, h2] <;> omega

theorem packRows_ok (fb : List Nat) (fbw xoff rl : Nat) :
    ∀ (k y : Nat),
      (∀ i, i < k → (y + i) * fbw + xoff < fb.length ∧ (y + i) * fbw + xoff + rl ≤ fb.length) →
      packRows fb fbw xoff rl y k =
        some (((List.range k).map
          (fun i => (fb.drop ((y + i) * fbw + xoff)).take rl)).flatten) := by
  intro k
  induction k with
  | zero => intro y _; simp [packRows]
  | succ k ih =>
    intro y h
    have h0 : y * fbw + xoff < fb.length ∧ y * fbw + xoff + rl ≤ fb.length := by
      have := h 0 (by omega)
      simpa using this
    have hrec := ih (y + 1) (by
      intro i hi
      have := h (i + 1) (by omega)
      have harith : y + 1 + i = y + (i + 1) := by omega
      rw [harith]
      exact this)
    simp only [packRows, h0, and_self, if_true]
    rw [hrec]
    rw [List.range_succ_eq_map]
    simp only [List.map_cons, List.map_map, List.flatten_cons, Nat.add_zero]
    congr 2
    congr 1
    apply List.map_congr_left
    intro a _
    have harith : y + 1 + a = y + (a + 1) := by omega
    simp [Function.comp_apply, Nat.succ_eq_add_one, harith]

theorem packRows_none (fb : List Nat) (fbw xoff rl : Nat) :
    ∀ (k y : Nat),
      (∃ i, i < k ∧
        ¬((y + i) * fbw + xoff < fb.length ∧ (y + i) * fbw + xoff + rl ≤ fb.length)) →
      packRows fb fbw xoff rl y k = none := by
  intro k
  induction k with
  | zero => intro y ⟨i, hi, _⟩; omega
  | succ k ih =>
    intro y ⟨i, hi, hbad⟩
    by_cases hg : y * fbw + xoff < fb.length ∧ y * fbw + xoff + rl ≤ fb.length
    · have hi0 : i ≠ 0 := by
        intro h0
        subst h0
        simp at hbad
        omega
      obtain ⟨j, rfl⟩ : ∃ j, i = j + 1 := ⟨i - 1, by omega⟩
      have hrec := ih (y + 1) ⟨j, by omega, by
        have harith : y + 1 + j = y + (j + 1) := by omega
        rw [harith]
        exact hbad⟩
      simp only [packRows, hg, and_self, if_true]
      rw [hrec]
    · simp only [packRows, hg, if_false]

/-- C1 (amended): for every driver whose framebuffer length equals
`width * height * N` with `N = bytes_per_pixel(color)`, and every rectangle
fully inside the panel bounds with `x_start <= x_end`, `y_start <= y_end`
AND `x_end < 480` (the controller's fixed maximum column index enforced by
`set_window`), `partial_flush` sends as the pixel payload exactly the
concatenation, for `y` from `y_start` to `y_end` in increasing order, of the
framebuffer bytes in
`[(y*width + x_start)*N, (y*width + x_start)*N + (x_end - x_start + 1)*N)`. -/
theorem claim_C1_packing (st : DriverState) (xs xe ys ye : Nat) (color : ColorMode)
    (hfb : st.framebuffer.length =
      st.config.width * st.config.height * color.bytes_per_pixel)
    (hxs : xs ≤ xe) (hys : ys ≤ ye)
    (hxe : xe < st.config.width) (hye : ye < st.config.height)
    (hxe480 : xe < 480) :
    partialFlush (fun _ => true) st xs xe ys ye color =
      DResult.ok { st with sent := st.sent ++
        [Transaction.commandData commands.CASET
           [xs / 256 % 256, xs % 256, xe / 256 % 256, xe % 256],
         Transaction.commandData commands.RASET
           [ys / 256 % 256, ys % 256, ye / 256 % 256, ye % 256],
         Transaction.pixels (rectPayload st.framebuffer st.config.width
           color.bytes_per_pixel xs xe ys ye)] } := by
  have hN := bytes_per_pixel_pos color
  set N := color.bytes_per_pixel with hNdef
  set w := st.config.width with hwdef
  set h := st.config.height with hhdef
  have hgeom : ¬(xe < xs ∨ ye < ys ∨ 480 ≤ xe ∨ st.config.height ≤ ye) := by
    rw [← hhdef]; omega
  unfold partialFlush
  rw [set_window_ok (fun _ => true) st xs ys xe ye hgeom rfl rfl]
  simp only [DResult.bind]
  have hbounds : ∀ i, i < ye - ys + 1 →
      (ys + i) * (w * N) + xs * N < st.framebuffer.length ∧
      (ys + i) * (w * N) + xs * N + (xe - xs + 1) * N ≤ st.framebuffer.length := by
    intro i hi
    have hrow : ys + i + 1 ≤ h := by omega
    have hkey : ((ys + i) * w + xe + 1) * N ≤ w * h * N := by
      have hcol : (ys + i) * w + xe + 1 ≤ (ys + i + 1) * w := by
        have : (ys + i + 1) * w = (ys + i) * w + w := by ring
        omega
      have hrows : (ys + i + 1) * w ≤ h * w := Nat.mul_le_mul_right w hrow
      calc ((ys + i) * w + xe + 1) * N ≤ ((ys + i + 1) * w) * N :=
            Nat.mul_le_mul_right N hcol
        _ ≤ (h * w) * N := Nat.mul_le_mul_right N hrows
        _ = w * h * N := by ring
    have hsplit : (ys + i) * (w * N) + xs * N + (xe - xs + 1) * N =
        ((ys + i) * w + xe + 1) * N := by
      have hx1 : xs + (xe - xs + 1) = xe + 1 := by omega
      calc (ys + i) * (w * N) + xs * N + (xe - xs + 1) * N
          = ((ys + i) * w + (xs + (xe - xs + 1))) * N := by ring
        _ = ((ys + i) * w + (xe + 1)) * N := by rw [hx1]
        _ = ((ys + i) * w + xe + 1) * N := by ring
    have hrl : 0 < (xe - xs + 1) * N := Nat.mul_pos (by omega) hN
    constructor
    · omega
    · omega
  have hpack := packRows_ok st.framebuffer (w * N) (xs * N) ((xe - xs + 1) * N)
    (ye - ys + 1) ys hbounds
  simp only [hpack]
  have hpayload : ((List.range (ye - ys + 1)).map
      (fun i => (st.framebuffer.drop ((ys + i) * (w * N) + xs * N)).take
        ((xe - xs + 1) * N))).flatten =
      rectPayload st.framebuffer w N xs xe ys ye := by
    unfold rectPayload
    congr 1
    apply List.map_congr_left
    intro a _
    have : (ys + a) * (w * N) + xs * N = ((ys + a) * w + xs) * N := by ring
    rw [this]
  rw [hpayload]
  unfold send_pixels
  simp

/-- Witness for C1 (amended): a 2x2 RGB888 framebuffer holding bytes 0..11,
flushing the column-1 strip, sends exactly rows `[3,4,5]` and `[9,10,11]`. -/
theorem claim_C1_packing_witness :
    (List.range 12).length = 2 * 2 * ColorMode.Rgb888.bytes_per_pixel ∧
    partialFlush (fun _ => true) ⟨List.range 12, ⟨2, 2⟩, []⟩ 1 1 0 1 ColorMode.Rgb888 =
      DResult.ok ⟨List.range 12, ⟨2, 2⟩,
        [Transaction.commandData commands.CASET [0, 1, 0, 1],
         Transaction.commandData commands.RASET [0, 0, 0, 1],
         Transaction.pixels (rectPayload (List.range 12) 2
           ColorMode.Rgb888.bytes_per_pixel 1 1 0 1)]⟩ :=
  ⟨by decide,
   claim_C1_packing ⟨List.range 12, ⟨2, 2⟩, []⟩ 1 1 0 1 ColorMode.Rgb888
     (by decide) (by decide) (by decide) (by decide) (by decide) (by decide)⟩

/-- Counterexample to C1 as stated: on a panel with configured width 500 and
a correctly sized RGB888 framebuffer, the single-pixel rectangle at column
490 lies fully inside the panel bounds, yet `partial_flush` sends nothing:
it is rejected by `set_window`'s hard-coded `x_end >= 480` ceiling, so no
pixel payload at all is produced. -/
theorem claim_C1_counterexample :
    (490 < (DisplaySize.mk 500 1).width) ∧
    (List.replicate 1500 0).length = 500 * 1 * ColorMode.Rgb888.bytes_per_pixel ∧
    partialFlush (fun _ => true) ⟨List.replicate 1500 0, ⟨500, 1⟩, []⟩ 490 490 0 0
        ColorMode.Rgb888 =
      DResult.error (DriverError.invalidConfiguration "Invalid window dimensions")
        ⟨List.replicate 1500 0, ⟨500, 1⟩, []⟩ := by
  refine ⟨by decide, ?_, ?_⟩
  · rw [List.length_replicate]
    decide
  · unfold partialFlush
    rw [set_window_reject (fun _ => true) ⟨List.replicate 1500 0, ⟨500, 1⟩, []⟩ 490 0 490 0
      (by decide)]
    rfl

/-- Counterexample to C3 as stated: a 2x2 panel whose framebuffer holds only
4 bytes (sized for Gray8) is partially flushed as RGB888; the window
geometry passes validation, so CASET and RASET are issued, and only then is
the row's byte range found to fall outside the framebuffer: the
`InvalidConfiguration` error is returned with the two window-set commands
already sent, contradicting "no window-set command has been sent when the
error is returned". -/
theorem claim_C3_counterexample :
    partialFlush (fun _ => true) ⟨[0, 0, 0, 0], ⟨2, 2⟩, []⟩ 0 1 1 1 ColorMode.Rgb888 =
      DResult.error (DriverError.invalidConfiguration "Framebuffer slice out of bounds")
        ⟨[0, 0, 0, 0], ⟨2, 2⟩,
         [Transaction.commandData commands.CASET [0, 0, 0, 1],
          Transaction.commandData commands.RASET [0, 1, 0, 1]]⟩ := by
  decide

/-- C3 (amended): whenever `partial_flush` returns `InvalidConfiguration`,
no pixel transaction has been issued; a window-validation failure is
detected before any transaction (the log is unchanged), but a packed-copy
byte range falling outside the framebuffer is only detected after the
CASET and RASET window-set commands have been sent (the log is extended by
exactly those two commands). -/
theorem claim_C3_invalid_sites (tr : Nat → Bool) (st : DriverState) (xs xe ys ye : Nat)
    (color : ColorMode) (m : String) (st' : DriverState)
    (h : partialFlush tr st xs xe ys ye color =
      DResult.error (DriverError.invalidConfiguration m) st') :
    st'.sent = st.sent ∨
      st'.sent = st.sent ++
        [Transaction.commandData commands.CASET
           [xs / 256 % 256, xs % 256, xe / 256 % 256, xe % 256],
         Transaction.commandData commands.RASET
           [ys / 256 % 256, ys % 256, ye / 256 % 256, ye % 256]] := by
  by_cases hgeo : xe < xs ∨ ye < ys ∨ 480 ≤ xe ∨ st.config.height ≤ ye
  · unfold partialFlush at h
    rw [set_window_reject tr st xs ys xe ye hgeo] at h
    simp only [DResult.bind, DResult.error.injEq] at h
    left
    rw [← h.2]
  · by_cases h0 : tr st.sent.length = true
    · by_cases h1 : tr (st.sent.length + 1) = true
      · unfold partialFlush at h
        rw [set_window_ok tr st xs ys xe ye hgeo h0 h1] at h
        simp only [DResult.bind] at h
        split at h
        · unfold send_pixels at h
          split at h
          · simp at h
          · simp at h
        · simp only [DResult.error.injEq, DriverError.invalidConfiguration.injEq] at h
          right
          rw [← h.2]
      · have hsw : set_window tr st xs ys xe ye =
            DResult.error DriverError.interfaceError
              { st with sent := st.sent ++
                [Transaction.commandData commands.CASET
                  [xs / 256 % 256, xs % 256, xe / 256 % 256, xe % 256]] } := by
          unfold set_window send_command_with_data
          rw [if_neg hgeo]
          simp [h0, h1, DResult.bind, List.length_append]
        unfold partialFlush at h
        rw [hsw] at h
        simp only [DResult.bind] at h
        simp at h
    · have hsw : set_window tr st xs ys xe ye =
          DResult.error DriverError.interfaceError st := by
        unfold set_window send_command_with_data
        rw [if_neg hgeo]
        simp [h0, DResult.bind]
      unfold partialFlush at h
      rw [hsw] at h
      simp only [DResult.bind] at h
      simp at h

/-- Witness for C3 (amended): at the counterexample input the returned
error's log is exactly the unchanged log extended by the CASET and RASET
commands, the right disjunct. -/
theorem claim_C3_invalid_sites_witness :
    (DriverState.mk [0, 0, 0, 0] ⟨2, 2⟩
        [Transaction.commandData commands.CASET [0, 0, 0, 1],
         Transaction.commandData commands.RASET [0, 1, 0, 1]]).sent =
      (DriverState.mk [0, 0, 0, 0] ⟨2, 2⟩ []).sent ∨
    (DriverState.mk [0, 0, 0, 0] ⟨2, 2⟩
        [Transaction.commandData commands.CASET [0, 0, 0, 1],
         Transaction.commandData commands.RASET [0, 1, 0, 1]]).sent =
      (DriverState.mk [0, 0, 0, 0] ⟨2, 2⟩ []).sent ++
        [Transaction.commandData commands.CASET
           [0 / 256 % 256, 0 % 256, 1 / 256 % 256, 1 % 256],
         Transaction.commandData commands.RASET
           [1 / 256 % 256, 1 % 256, 1 / 256 % 256, 1 % 256]] :=
  claim_C3_invalid_sites (fun _ => true) ⟨[0, 0, 0, 0], ⟨2, 2⟩, []⟩ 0 1 1 1
    ColorMode.Rgb888 "Framebuffer slice out of bounds"
    ⟨[0, 0, 0, 0], ⟨2, 2⟩,
     [Transaction.commandData commands.CASET [0, 0, 0, 1],
      Transaction.commandData commands.RASET [0, 1, 0, 1]]⟩ (by decide)

theorem draw_index_lt (w h x y : Nat) (hx : x < w) (hy : y < h) :
    (y * w + x) * 3 + 2 < w * h * 3 := by
  have h1 : y * w + x + 1 ≤ h * w := by
    have hcol : y * w + x + 1 ≤ y * w + w := by omega
    have hrow : (y + 1) * w ≤ h * w := Nat.mul_le_mul_right w hy
    have hexp : (y + 1) * w = y * w + w := by ring
    omega
  nlinarith

theorem draw_pixel_in_bounds (config : DisplaySize) (fb : List Nat) (c : Rgb888)
    (x y : Nat) (hx : x < config.width) (hy : y < config.height)
    (hfit : (y * config.width + x) * 3 + 2 < fb.length) :
    draw_pixel config fb ⟨(x : Int), (y : Int), c⟩ =
      ((fb.set ((y * config.width + x) * 3) (c.into_storage / 65536 % 256)).set
        ((y * config.width + x) * 3 + 1) (c.into_storage / 256 % 256)).set
        ((y * config.width + x) * 3 + 2) (c.into_storage % 256) := by
  have hcond : (0 : Int) ≤ (Pixel.mk (x : Int) (y : Int) c).x ∧
      (Pixel.mk (x : Int) (y : Int) c).x < (config.width : Int) ∧
      (0 : Int) ≤ (Pixel.mk (x : Int) (y : Int) c).y ∧
      (Pixel.mk (x : Int) (y : Int) c).y < (config.height : Int) := by
    refine ⟨Int.natCast_nonneg x, ?_, Int.natCast_nonneg y, ?_⟩
    · show (x : Int) < (config.width : Int)
      exact_mod_cast hx
    · show (y : Int) < (config.height : Int)
      exact_mod_cast hy
  unfold draw_pixel
  rw [if_pos hcond]
  simp only [Int.toNat_natCast]
  rw [if_pos hfit]

theorem draw_pixel_length (config : DisplaySize) (fb : List Nat) (p : Pixel) :
    (draw_pixel config fb p).length = fb.length := by
  unfold draw_pixel
  dsimp only
  split_ifs <;> simp [List.length_set]

theorem draw_iter_length (config : DisplaySize) :
    ∀ (ps : List Pixel) (fb : List Nat), (draw_iter config fb ps).length = fb.length := by
  intro ps
  induction ps with
  | nil => intro fb; rfl
  | cons p rest ih =>
    intro fb
    have : draw_iter config fb (p :: rest) = draw_iter config (draw_pixel config fb p) rest :=
      rfl
    rw [this, ih, draw_pixel_length]

/-- C5: for every driver whose framebuffer length is at least
`width * height * 3` and every coordinate `(x, y)` with `0 <= x < width` and
`0 <= y < height`, writing an `Rgb888` color at `(x, y)` via `draw_iter` and
then reading back the three framebuffer bytes at offset `(y*width + x)*3`
yields exactly the written color's red, green and blue channel bytes, in
that order. -/
theorem claim_C5_roundtrip (config : DisplaySize) (fb : List Nat) (c : Rgb888)
    (x y : Nat)
    (hfb : config.width * config.height * 3 ≤ fb.length)
    (hx : x < config.width) (hy : y < config.height)
    (hr : c.r < 256) (hg : c.g < 256) (hb : c.b < 256) :
    (draw_iter config fb [⟨(x : Int), (y : Int), c⟩])[(y * config.width + x) * 3]? =
        some c.r ∧
    (draw_iter config fb [⟨(x : Int), (y : Int), c⟩])[(y * config.width + x) * 3 + 1]? =
        some c.g ∧
    (draw_iter config fb [⟨(x : Int), (y : Int), c⟩])[(y * config.width + x) * 3 + 2]? =
        some c.b := by
  have hfit : (y * config.width + x) * 3 + 2 < fb.length :=
    lt_of_lt_of_le (draw_index_lt config.width config.height x y hx hy) hfb
  have hone : draw_iter config fb [⟨(x : Int), (y : Int), c⟩] =
      draw_pixel config fb ⟨(x : Int), (y : Int), c⟩ := rfl
  rw [hone, draw_pixel_in_bounds config fb c x y hx hy hfit]
  have hstor : c.into_storage = c.r * 65536 + c.g * 256 + c.b := rfl
  refine ⟨?_, ?_, ?_⟩
  · rw [List.getElem?_set_ne (by omega), List.getElem?_set_ne (by omega),
      List.getElem?_set_eq_of_lt _ (by omega)]
    rw [hstor]
    congr 1
    omega
  · rw [List.getElem?_set_ne (by omega),
      List.getElem?_set_eq_of_lt _ (by rw [List.length_set]; omega)]
    rw [hstor]
    congr 1
    omega
  · rw [List.getElem?_set_eq_of_lt _ (by rw [List.length_set, List.length_set]; omega)]
    rw [hstor]
    congr 1
    omega

/-- Witness for C5: writing color (10, 20, 30) at pixel (1, 1) of a 2x2
RGB888 framebuffer of zeros stores bytes 10, 20, 30 at offset 9. -/
theorem claim_C5_roundtrip_witness :
    (draw_iter ⟨2, 2⟩ (List.replicate 12 0) [⟨(1 : Int), (1 : Int), ⟨10, 20, 30⟩⟩])[
        (1 * 2 + 1) * 3]? = some 10 ∧
    (draw_iter ⟨2, 2⟩ (List.replicate 12 0) [⟨(1 : Int), (1 : Int), ⟨10, 20, 30⟩⟩])[
        (1 * 2 + 1) * 3 + 1]? = some 20 ∧
    (draw_iter ⟨2, 2⟩ (List.replicate 12 0) [⟨(1 : Int), (1 : Int), ⟨10, 20, 30⟩⟩])[
        (1 * 2 + 1) * 3 + 2]? = some 30 :=
  claim_C5_roundtrip ⟨2, 2⟩ (List.replicate 12 0) ⟨10, 20, 30⟩ 1 1
    (by decide) (by decide) (by decide) (by decide) (by decide) (by decide)

/-- C6: for every coordinate outside `[0, width) x [0, height)`, a pixel
write via `draw_iter` leaves every byte of the framebuffer unchanged; the
source's error type is `Infallible`, so success is by construction and only
the framebuffer effect needs checking. -/
theorem claim_C6_oob_noop (config : DisplaySize) (fb : List Nat) (p : Pixel)
    (h : p.x < 0 ∨ (config.width : Int) ≤ p.x ∨ p.y < 0 ∨ (config.height : Int) ≤ p.y) :
    draw_iter config fb [p] = fb := by
  have hone : draw_iter config fb [p] = draw_pixel config fb p := rfl
  rw [hone]
  unfold draw_pixel
  rw [if_neg]
  intro hc
  obtain ⟨h1, h2, h3, h4⟩ := hc
  rcases h with h | h | h | h <;> omega

/-- Witness for C6: a write at x = -1 on a 2x2 panel leaves the framebuffer
unchanged. -/
theorem claim_C6_oob_noop_witness :
    draw_iter ⟨2, 2⟩ [1, 2, 3] [⟨(-1 : Int), (0 : Int), ⟨9, 9, 9⟩⟩] = [1, 2, 3] :=
  claim_C6_oob_noop ⟨2, 2⟩ [1, 2, 3] ⟨(-1 : Int), (0 : Int), ⟨9, 9, 9⟩⟩ (by decide)

/-- C9: whatever `ColorMode` the driver was configured with (the framebuffer
being sized by `framebuffer_size` for that mode), the `DrawTarget` pixel-write
path encodes a pixel as exactly 3 bytes — red, green, blue at consecutive
offsets starting at `(y*width + x)*3` — and touches no other byte: the byte
width and channel order used by drawing do not depend on the configured
`ColorMode`. -/
theorem claim_C9_stride (cm : ColorMode) (config : DisplaySize) (fb : List Nat)
    (c : Rgb888) (x y : Nat)
    (hfb : fb.length = framebuffer_size config cm)
    (hx : x < config.width) (hy : y < config.height)
    (hfit : (y * config.width + x) * 3 + 2 < fb.length) :
    ((draw_pixel config fb ⟨(x : Int), (y : Int), c⟩)[(y * config.width + x) * 3]? =
        some (c.into_storage / 65536 % 256) ∧
      (draw_pixel config fb ⟨(x : Int), (y : Int), c⟩)[(y * config.width + x) * 3 + 1]? =
        some (c.into_storage / 256 % 256) ∧
      (draw_pixel config fb ⟨(x : Int), (y : Int), c⟩)[(y * config.width + x) * 3 + 2]? =
        some (c.into_storage % 256)) ∧
    ∀ j, j ≠ (y * config.width + x) * 3 → j ≠ (y * config.width + x) * 3 + 1 →
      j ≠ (y * config.width + x) * 3 + 2 →
      (draw_pixel config fb ⟨(x : Int), (y : Int), c⟩)[j]? = fb[j]? := by
  rw [draw_pixel_in_bounds config fb c x y hx hy hfit]
  constructor
  · refine ⟨?_, ?_, ?_⟩
    · rw [List.getElem?_set_ne (by omega), List.getElem?_set_ne (by omega),
        List.getElem?_set_eq_of_lt _ (by omega)]
    · rw [List.getElem?_set_ne (by omega),
        List.getElem?_set_eq_of_lt _ (by rw [List.length_set]; omega)]
    · rw [List.getElem?_set_eq_of_lt _ (by rw [List.length_set, List.length_set]; omega)]
  · intro j hj0 hj1 hj2
    rw [List.getElem?_set_ne (by omega), List.getElem?_set_ne (by omega),
      List.getElem?_set_ne (by omega)]

/-- Witness for C9: drawing into a framebuffer sized for `Rgb565`
(2 bytes/pixel, 8 bytes for a 2x2 panel) still uses the 3-byte RGB stride:
pixel (0,0) lands at offsets 0, 1, 2 and leaves the rest unchanged. -/
theorem claim_C9_stride_witness :
    ((draw_pixel ⟨2, 2⟩ (List.replicate 8 0) ⟨(0 : Int), (0 : Int), ⟨1, 2, 3⟩⟩)[
        (0 * 2 + 0) * 3]? = some ((Rgb888.mk 1 2 3).into_storage / 65536 % 256) ∧
      (draw_pixel ⟨2, 2⟩ (List.replicate 8 0) ⟨(0 : Int), (0 : Int), ⟨1, 2, 3⟩⟩)[
        (0 * 2 + 0) * 3 + 1]? = some ((Rgb888.mk 1 2 3).into_storage / 256 % 256) ∧
      (draw_pixel ⟨2, 2⟩ (List.replicate 8 0) ⟨(0 : Int), (0 : Int), ⟨1, 2, 3⟩⟩)[
        (0 * 2 + 0) * 3 + 2]? = some ((Rgb888.mk 1 2 3).into_storage % 256)) ∧
    ∀ j, j ≠ (0 * 2 + 0) * 3 → j ≠ (0 * 2 + 0) * 3 + 1 → j ≠ (0 * 2 + 0) * 3 + 2 →
      (draw_pixel ⟨2, 2⟩ (List.replicate 8 0) ⟨(0 : Int), (0 : Int), ⟨1, 2, 3⟩⟩)[j]? =
        (List.replicate 8 0)[j]? :=
  claim_C9_stride ColorMode.Rgb565 ⟨2, 2⟩ (List.replicate 8 0) ⟨1, 2, 3⟩ 0 0
    (by decide) (by decide) (by decide) (by decide)

/-- Counterexample to C7 as stated: on a 2x1 panel with an undersized 3-byte
framebuffer, the in-bounds coordinate (1, 0) has computed byte range [3, 6),
which falls partially outside the framebuffer; the claim requires a reported
fault, but the pixel write silently skips the access, leaves the framebuffer
unchanged and (its error type being `Infallible`) reports success. -/
theorem claim_C7_counterexample :
    ((0 : Int) ≤ 1 ∧ (1 : Int) < 2 ∧ (0 : Int) ≤ 0 ∧ (0 : Int) < 1) ∧
    ([9, 9, 9] : List Nat).length ≤ (0 * 2 + 1) * 3 + 2 ∧
    draw_iter ⟨2, 1⟩ [9, 9, 9] [⟨(1 : Int), (0 : Int), ⟨5, 6, 7⟩⟩] = [9, 9, 9] := by
  decide

/-- C7 (amended): every framebuffer byte access stays within bounds — a
pixel write never changes the framebuffer's length and a write takes effect
only when its full 3-byte range fits — and `partial_flush` reports
`InvalidConfiguration` (after the window-set commands) when a row's computed
byte range falls outside the framebuffer; but the pixel-write path does NOT
report a fault for an in-bounds coordinate whose byte range exceeds an
undersized framebuffer: it silently skips the write. -/
theorem claim_C7_bounds :
    (∀ (config : DisplaySize) (fb : List Nat) (ps : List Pixel),
      (draw_iter config fb ps).length = fb.length) ∧
    (∀ (config : DisplaySize) (fb : List Nat) (p : Pixel),
      0 ≤ p.x → p.x < (config.width : Int) → 0 ≤ p.y → p.y < (config.height : Int) →
      fb.length ≤ (p.y.toNat * config.width + p.x.toNat) * 3 + 2 →
      draw_pixel config fb p = fb) ∧
    (∀ (st : DriverState) (xs xe ys ye : Nat) (color : ColorMode),
      ¬(xe < xs ∨ ye < ys ∨ 480 ≤ xe ∨ st.config.height ≤ ye) →
      (∃ i, i < ye - ys + 1 ∧
        ¬((ys + i) * (st.config.width * color.bytes_per_pixel) +
            xs * color.bytes_per_pixel < st.framebuffer.length ∧
          (ys + i) * (st.config.width * color.bytes_per_pixel) +
            xs * color.bytes_per_pixel + (xe - xs + 1) * color.bytes_per_pixel ≤
            st.framebuffer.length)) →
      partialFlush (fun _ => true) st xs xe ys ye color =
        DResult.error (DriverError.invalidConfiguration "Framebuffer slice out of bounds")
          { st with sent := st.sent ++
            [Transaction.commandData commands.CASET
               [xs / 256 % 256, xs % 256, xe / 256 % 256, xe % 256],
             Transaction.commandData commands.RASET
               [ys / 256 % 256, ys % 256, ye / 256 % 256, ye % 256]] }) := by
  refine ⟨fun config fb ps => draw_iter_length config ps fb, ?_, ?_⟩
  · intro config fb p h1 h2 h3 h4 hbig
    unfold draw_pixel
    rw [if_pos ⟨h1, h2, h3, h4⟩]
    dsimp only
    rw [if_neg (by omega)]
  · intro st xs xe ys ye color hgeo hbad
    unfold partialFlush
    rw [set_window_ok (fun _ => true) st xs ys xe ye hgeo rfl rfl]
    simp only [DResult.bind]
    rw [packRows_none st.framebuffer (st.config.width * color.bytes_per_pixel)
      (xs * color.bytes_per_pixel) ((xe - xs + 1) * color.bytes_per_pixel)
      (ye - ys + 1) ys hbad]

/-- Witness for C7 (amended): the length-preservation and silent-skip parts
at the 2x1-panel undersized-framebuffer input, and the partial-flush fault
at a 2x2 Gray8-sized framebuffer flushed as RGB888. -/
theorem claim_C7_bounds_witness :
    (draw_iter ⟨2, 1⟩ [9, 9, 9] [⟨(1 : Int), (0 : Int), ⟨5, 6, 7⟩⟩]).length =
      ([9, 9, 9] : List Nat).length ∧
    draw_pixel ⟨2, 1⟩ [9, 9, 9] ⟨(1 : Int), (0 : Int), ⟨5, 6, 7⟩⟩ = [9, 9, 9] ∧
    partialFlush (fun _ => true) ⟨[0, 0, 0, 0], ⟨2, 2⟩, []⟩ 0 1 1 1 ColorMode.Rgb888 =
      DResult.error (DriverError.invalidConfiguration "Framebuffer slice out of bounds")
        { DriverState.mk [0, 0, 0, 0] ⟨2, 2⟩ [] with sent :=
          (DriverState.mk [0, 0, 0, 0] ⟨2, 2⟩ []).sent ++
            [Transaction.commandData commands.CASET
               [0 / 256 % 256, 0 % 256, 1 / 256 % 256, 1 % 256],
             Transaction.commandData commands.RASET
               [1 / 256 % 256, 1 % 256, 1 / 256 % 256, 1 % 256]] } :=
  ⟨claim_C7_bounds.1 ⟨2, 1⟩ [9, 9, 9] [⟨(1 : Int), (0 : Int), ⟨5, 6, 7⟩⟩],
   claim_C7_bounds.2.1 ⟨2, 1⟩ [9, 9, 9] ⟨(1 : Int), (0 : Int), ⟨5, 6, 7⟩⟩
     (by decide) (by decide) (by decide) (by decide) (by decide),
   claim_C7_bounds.2.2 ⟨[0, 0, 0, 0], ⟨2, 2⟩, []⟩ 0 1 1 1 ColorMode.Rgb888
     (by decide) ⟨0, by decide, by decide⟩⟩

namespace Lgt4s3

theorem chunksOf_flatten (n : Nat) (hn : 0 < n) (l : List Nat) :
    (chunksOf n l).flatten = l := by
  suffices H : ∀ (m : Nat) (l : List Nat), l.length ≤ m → (chunksOf n l).flatten = l from
    H l.length l le_rfl
  intro m
  induction m with
  | zero =>
    intro l hl
    have : l = [] := List.eq_nil_of_length_eq_zero (by omega)
    subst this
    rw [chunksOf]
    simp
  | succ m ih =>
    intro l hl
    rw [chunksOf]
    by_cases hnil : l = []
    · simp [hnil]
    · rw [if_neg (by push_neg; exact ⟨by omega, hnil⟩)]
      rw [List.flatten_cons]
      rw [ih (l.drop n) (by
        have : 0 < l.length := List.length_pos.mpr hnil
        rw [List.length_drop]
        omega)]
      exact List.take_append_drop n l

theorem chunksOf_length (n : Nat) (hn : 0 < n) (l : List Nat) :
    (chunksOf n l).length = (l.length + n - 1) / n := by
  suffices H : ∀ (m : Nat) (l : List Nat), l.length ≤ m →
      (chunksOf n l).length = (l.length + n - 1) / n from H l.length l le_rfl
  intro m
  induction m with
  | zero =>
    intro l hl
    have : l = [] := List.eq_nil_of_length_eq_zero (by omega)
    subst this
    rw [chunksOf]
    simp [Nat.div_eq_of_lt (by omega : n - 1 < n)]
  | succ m ih =>
    intro l hl
    rw [chunksOf]
    by_cases hnil : l = []
    · simp [hnil, Nat.div_eq_of_lt (by omega : n - 1 < n)]
    · rw [if_neg (by push_neg; exact ⟨by omega, hnil⟩)]
      have hpos : 0 < l.length := List.length_pos.mpr hnil
      rw [List.length_cons]
      rw [ih (l.drop n) (by rw [List.length_drop]; omega)]
      rw [List.length_drop]
      by_cases hle : l.length ≤ n
      · have hdz : (l.length - n + n - 1) / n = 0 :=
          Nat.div_eq_of_lt (by omega)
        have h1 : 1 ≤ (l.length + n - 1) / n :=
          (Nat.le_div_iff_mul_le hn).mpr (by omega)
        have h2 : (l.length + n - 1) / n < 2 :=
          (Nat.div_lt_iff_lt_mul hn).mpr (by omega)
        omega
      · have heq : l.length + n - 1 = (l.length - 1) + n := by omega
        have heq2 : l.length - n + n - 1 = l.length - 1 := by omega
        rw [heq, heq2, Nat.add_div_right _ hn]

theorem chunksOf_mem_length (n : Nat) (hn : 0 < n) (l : List Nat) :
    ∀ c ∈ chunksOf n l, c.length ≤ n := by
  suffices H : ∀ (m : Nat) (l : List Nat), l.length ≤ m →
      ∀ c ∈ chunksOf n l, c.length ≤ n from H l.length l le_rfl
  intro m
  induction m with
  | zero =>
    intro l hl c hc
    have : l = [] := List.eq_nil_of_length_eq_zero (by omega)
    subst this
    rw [chunksOf] at hc
    simp at hc
  | succ m ih =>
    intro l hl c hc
    rw [chunksOf] at hc
    by_cases hnil : l = []
    · simp [hnil] at hc
    · rw [if_neg (by push_neg; exact ⟨by omega, hnil⟩)] at hc
      have hpos : 0 < l.length := List.length_pos.mpr hnil
      rcases List.mem_cons.mp hc with h | h
      · subst h
        simp [List.length_take]
      · exact ih (l.drop n) (by rw [List.length_drop]; omega) c h

theorem range_map_ifzero (m : Nat) (a b : Nat) :
    (List.range m).map (fun i => if i = 0 then a else b) =
      if m = 0 then [] else a :: List.replicate (m - 1) b := by
  cases m with
  | zero => simp
  | succ m =>
    have hcomp : List.map ((fun i => if i = 0 then a else b) ∘ Nat.succ) (List.range m) =
        List.map (fun _ => b) (List.range m) :=
      List.map_congr_left (fun i _ => by simp)
    rw [List.range_succ_eq_map, List.map_cons, List.map_map, hcomp, List.map_const',
      List.length_range]
    simp

end Lgt4s3

namespace Lgt4s3

theorem send_pixels_map_payload (pixels : List Nat) :
    (send_pixels pixels).map (fun w => w.payload) = chunksOf DMA_CHUNK_SIZE pixels := by
  unfold send_pixels
  rw [List.map_map]
  have hfun : ((fun w : HdWrite => w.payload) ∘ (fun p : Nat × List Nat =>
      if p.1 = 0 then
        { mode := DataMode.quad, opcode := QSPI_PIXEL_OPCODE,
          address := CMD_RAMWR <<< 8, payload := p.2 }
      else
        { mode := DataMode.quad, opcode := QSPI_PIXEL_OPCODE,
          address := CMD_RAMWRC <<< 8, payload := p.2 })) = Prod.snd := by
    funext p
    by_cases h : p.1 = 0 <;> simp [h]
  rw [hfun, List.enum_map_snd]

theorem send_pixels_map_address (pixels : List Nat) :
    (send_pixels pixels).map (fun w => w.address) =
      (List.range (chunksOf DMA_CHUNK_SIZE pixels).length).map
        (fun i => if i = 0 then CMD_RAMWR <<< 8 else CMD_RAMWRC <<< 8) := by
  unfold send_pixels
  rw [List.map_map]
  have hfun : ((fun w : HdWrite => w.address) ∘ (fun p : Nat × List Nat =>
      if p.1 = 0 then
        { mode := DataMode.quad, opcode := QSPI_PIXEL_OPCODE,
          address := CMD_RAMWR <<< 8, payload := p.2 }
      else
        { mode := DataMode.quad, opcode := QSPI_PIXEL_OPCODE,
          address := CMD_RAMWRC <<< 8, payload := p.2 })) =
      ((fun i : Nat => if i = 0 then CMD_RAMWR <<< 8 else CMD_RAMWRC <<< 8) ∘ Prod.fst) := by
    funext p
    by_cases h : p.1 = 0 <;> simp [h]
  rw [hfun, ← List.map_map, List.enum_map_fst]

end Lgt4s3

/-- C4: for every pixel payload of length `L`, the Lilygo T4-S3
`send_pixels` issues exactly `ceil(L / C)` transport transactions with
`C = DMA_CHUNK_SIZE = 16380`; each chunk payload is at most `C` bytes;
chunk index 0 uses address `RAMWR << 8`, every later chunk uses address
`RAMWRC << 8`; and the in-order concatenation of all chunk payloads equals
the original payload. -/
theorem claim_C4_chunking (pixels : List Nat) :
    Lgt4s3.DMA_CHUNK_SIZE = 16380 ∧
    (Lgt4s3.send_pixels pixels).length =
      (pixels.length + Lgt4s3.DMA_CHUNK_SIZE - 1) / Lgt4s3.DMA_CHUNK_SIZE ∧
    (∀ w ∈ Lgt4s3.send_pixels pixels, w.payload.length ≤ Lgt4s3.DMA_CHUNK_SIZE) ∧
    ((Lgt4s3.send_pixels pixels).map (fun w => w.address) =
      if (Lgt4s3.send_pixels pixels).length = 0 then []
      else (Lgt4s3.CMD_RAMWR <<< 8) ::
        List.replicate ((Lgt4s3.send_pixels pixels).length - 1)
          (Lgt4s3.CMD_RAMWRC <<< 8)) ∧
    ((Lgt4s3.send_pixels pixels).map (fun w => w.payload)).flatten = pixels := by
  have hn : 0 < Lgt4s3.DMA_CHUNK_SIZE := by decide
  have hlen : (Lgt4s3.send_pixels pixels).length =
      (Lgt4s3.chunksOf Lgt4s3.DMA_CHUNK_SIZE pixels).length := by
    unfold Lgt4s3.send_pixels
    rw [List.length_map, List.enum_length]
  refine ⟨rfl, ?_, ?_, ?_, ?_⟩
  · rw [hlen, Lgt4s3.chunksOf_length _ hn]
  · intro w hw
    have hmem : w.payload ∈ (Lgt4s3.send_pixels pixels).map (fun w => w.payload) :=
      List.mem_map_of_mem _ hw
    rw [Lgt4s3.send_pixels_map_payload] at hmem
    exact Lgt4s3.chunksOf_mem_length _ hn pixels _ hmem
  · rw [Lgt4s3.send_pixels_map_address, Lgt4s3.range_map_ifzero, hlen]
  · rw [Lgt4s3.send_pixels_map_payload, Lgt4s3.chunksOf_flatten _ hn]

/-- Witness for C4: a 3-byte payload on the 16380-byte chunk size yields one
quad-mode transaction addressed `RAMWR << 8` carrying the whole payload. -/
theorem claim_C4_chunking_witness :
    Lgt4s3.DMA_CHUNK_SIZE = 16380 ∧
    (Lgt4s3.send_pixels [1, 2, 3]).length =
      (([1, 2, 3] : List Nat).length + Lgt4s3.DMA_CHUNK_SIZE - 1) /
        Lgt4s3.DMA_CHUNK_SIZE ∧
    (∀ w ∈ Lgt4s3.send_pixels [1, 2, 3],
      w.payload.length ≤ Lgt4s3.DMA_CHUNK_SIZE) ∧
    ((Lgt4s3.send_pixels [1, 2, 3]).map (fun w => w.address) =
      if (Lgt4s3.send_pixels [1, 2, 3]).length = 0 then []
      else (Lgt4s3.CMD_RAMWR <<< 8) ::
        List.replicate ((Lgt4s3.send_pixels [1, 2, 3]).length - 1)
          (Lgt4s3.CMD_RAMWRC <<< 8)) ∧
    ((Lgt4s3.send_pixels [1, 2, 3]).map (fun w => w.payload)).flatten = [1, 2, 3] :=
  claim_C4_chunking [1, 2, 3]
